import Mathlib

/-!
Verification of the swap engine in `swap/swap.go` of the
Binance/Cronos bridge backend server.

The development shallowly embeds the data model and the database-effecting
operations of the swap engine.  Pure Go functions become Lean functions; the
relational store becomes explicit lists of rows threaded through each
operation; a `gorm` transaction that rolls back leaves the state unchanged,
and a Go `nil`-pointer dereference (a panic) is modelled by an `Option`-valued
result being `none`.

Constants and types that live in other packages of the repository
(`model`, `common`, the `const` file of the `swap` package) are not part of
the given source tree; they are modelled from the spec where they are needed
and documented as such.  Library effects (crypto/hmac, the gorm query
builder, the go-ethereum RPC clients) are abstracted at their call boundary
and the modelling choice is documented on each definition.
-/

namespace OccSwap

/-- Modelled from the spec: the swap lifecycle statuses of `common.SwapStatus`
(`TokenReceived → Confirmed → Sending → Sent → Success`, with side branches
`QuoteRejected` and `SendFailed`); the constant definitions live outside the
given source tree. -/
inductive SwapStatus where
  | tokenReceived
  | confirmed
  | sending
  | sent
  | success
  | sendFailed
  | quoteRejected
deriving DecidableEq, Repr

/-- Modelled from the spec: the statuses of a `SwapFillTx` row
(`Created, Sent, Success, Failed, Missing`); the `model.FillTx*` constants
live outside the given source tree. -/
inductive FillTxStatus where
  | created
  | sent
  | success
  | failed
  | missing
deriving DecidableEq, Repr

/-- Modelled from the spec: the six directed chain pairs
(`common.SwapDirection` constants `SwapEth2BSC`, `SwapBSC2Eth`,
`SwapEth2MATIC`, `SwapMATIC2Eth`, `SwapBSC2MATIC`, `SwapMATIC2BSC`). -/
inductive Direction where
  | eth2bsc
  | bsc2eth
  | eth2matic
  | matic2eth
  | bsc2matic
  | matic2bsc
deriving DecidableEq, Repr

/-- Modelled from the spec: the string rendering of a `common.SwapStatus`
value (in Go the status constants are strings and are formatted with `%s`
into the MAC material); the exact constant strings live outside the given
source tree, so an injective rendering is fixed here. -/
def statusString : SwapStatus → String
  | .tokenReceived => "received_token"
  | .confirmed => "confirmed"
  | .sending => "sending"
  | .sent => "sent"
  | .success => "success"
  | .sendFailed => "send_failed"
  | .quoteRejected => "quote_rejected"

/-- Modelled from the spec: the string rendering of a `common.SwapDirection`
value (in Go the direction constants are strings); the exact constant strings
live outside the given source tree. -/
def directionString : Direction → String
  | .eth2bsc => "ETH2BSC"
  | .bsc2eth => "BSC2ETH"
  | .eth2matic => "ETH2MATIC"
  | .matic2eth => "MATIC2ETH"
  | .bsc2matic => "BSC2MATIC"
  | .matic2bsc => "MATIC2BSC"

/-- Modelled from the spec: the name of the first source chain,
`common.ChainBSC` (a string constant defined outside the given source tree). -/
def ChainBSC : String := "BSC"

/-- Modelled from the spec: the name of the second source chain,
`common.ChainETH`. -/
def ChainETH : String := "ETH"

/-- Modelled from the spec: the name of the third source chain,
`common.ChainMATIC`. -/
def ChainMATIC : String := "MATIC"

/-- One `Swap` row (`model.Swap`), the persistent record of one logical
bridge operation.  Timestamps are not modelled. -/
structure Swap where
  id : Nat
  status : SwapStatus
  sponsor : String
  toChainId : String
  bep20Addr : String
  erc20Addr : String
  symbol : String
  amount : String
  decimals : Int
  direction : Direction
  startTxHash : String
  fillTxHash : String
  log : String
  recordHash : String
deriving DecidableEq, Repr

/-- One `SwapFillTx` row (`model.SwapFillTx`), one attempt to settle a swap
on the destination chain.  Timestamps are not modelled. -/
structure SwapFillTx where
  id : Nat
  direction : Direction
  startSwapTxHash : String
  fillSwapTxHash : String
  gasPrice : String
  height : Int
  consumedFeeAmount : String
  status : FillTxStatus
  trackRetryCounter : Nat
deriving DecidableEq, Repr

/-- One `SwapStartTxLog` row (`model.SwapStartTxLog`), a raw observed lock
event; only the fields read by `createSwap` are modelled. -/
structure SwapStartTxLog where
  id : Nat
  chain : String
  txHash : String
  fromAddress : String
  amount : String
  toChainId : String
  height : Int
deriving DecidableEq, Repr

/-- The relational store restricted to the two tables the verified
operations touch.  Rows are kept in primary-key (`id`) order, matching the
`ORDER BY id` / primary-key ordering of the daemons' queries. -/
structure DBState where
  swaps : List Swap
  fillTxs : List SwapFillTx
deriving DecidableEq, Repr

/-- The engine state relevant to the verified operations: the HMAC secret
key (`hmacCKey`), the HMAC primitive itself, and the configuration values
the daemons read.  `hmacHex` abstracts Go's
`hex.EncodeToString(hmac.New(sha256.New, key).Sum(material))`, i.e. the
hex-lowercase HMAC-SHA-256 of the material under the key; the crypto
primitive is the standard library's and is kept abstract. -/
structure SwapEngine where
  hmacCKey : String
  hmacHex : String → String → String
  ethConfirmNum : Int
  ethMaxTrackRetry : Nat
  bscMaxTrackRetry : Nat
  maticMaxTrackRetry : Nat
  trackSentTxBatchSize : Nat

/-- Decimal-digit accumulator for `goSetStringBase10`: returns `none` on the
first non-digit character or when no digit at all was consumed. -/
def decDigitsValAux : Option Nat → List Char → Option Nat
  | acc, [] => acc
  | acc, c :: rest =>
    if c.isDigit then decDigitsValAux (some ((acc.getD 0) * 10 + (c.toNat - 48))) rest
    else none

/-- Go's `big.Int.SetString(s, 10)`: an optional leading sign followed by a
non-empty run of decimal digits, consuming the whole string; underscores are
rejected when an explicit base is given.  Returns the parsed integer, or
`none` exactly when the Go call returns `ok = false`. -/
def goSetStringBase10 (s : String) : Option Int :=
  match s.toList with
  | [] => none
  | '+' :: rest => (decDigitsValAux none rest).map (fun n => (n : Int))
  | '-' :: rest => (decDigitsValAux none rest).map (fun n => -(n : Int))
  | l => (decDigitsValAux none l).map (fun n => (n : Int))

/-- The MAC material of `getSwapHMAC`: the ten fields
`status, sponsor, BEP20Addr, ERC20Addr, symbol, amount, decimals, direction,
start_tx_hash, fill_tx_hash` joined in that fixed order by `#`, exactly as
built by `fmt.Sprintf("%s#%s#%s#%s#%s#%s#%d#%s#%s#%s", ...)`. -/
def swapHMACMaterial (swap : Swap) : String :=
  statusString swap.status ++ "#" ++ swap.sponsor ++ "#" ++ swap.bep20Addr ++ "#" ++
    swap.erc20Addr ++ "#" ++ swap.symbol ++ "#" ++ swap.amount ++ "#" ++
    toString swap.decimals ++ "#" ++ directionString swap.direction ++ "#" ++
    swap.startTxHash ++ "#" ++ swap.fillTxHash

/-- `(engine *SwapEngine) getSwapHMAC`: the hex HMAC-SHA-256 of the material
under the engine's secret key. -/
def SwapEngine.getSwapHMAC (engine : SwapEngine) (swap : Swap) : String :=
  engine.hmacHex engine.hmacCKey (swapHMACMaterial swap)

/-- `(engine *SwapEngine) verifySwap`: compare the stored `record_hash` with
the recomputed MAC. -/
def SwapEngine.verifySwap (engine : SwapEngine) (swap : Swap) : Bool :=
  swap.recordHash == engine.getSwapHMAC swap

/-- `gorm` `Save` on the `swap` table: update the row with the same primary
key, or create the row when no such row exists. -/
def saveSwapRow (s : Swap) (l : List Swap) : List Swap :=
  if l.any (fun r => r.id == s.id) then l.map (fun r => if r.id == s.id then s else r)
  else l ++ [s]

/-- `(engine *SwapEngine) insertSwap`: recompute and store the MAC, then
`Create` the row. -/
def SwapEngine.insertSwap (engine : SwapEngine) (swap : Swap) (l : List Swap) : List Swap :=
  l ++ [{ swap with recordHash := engine.getSwapHMAC swap }]

/-- `(engine *SwapEngine) updateSwap`: recompute and store the MAC, then
`Save` the row. -/
def SwapEngine.updateSwap (engine : SwapEngine) (swap : Swap) (l : List Swap) : List Swap :=
  saveSwapRow { swap with recordHash := engine.getSwapHMAC swap } l

/-- All swap rows of a table verify against the engine's MAC (the at-rest
invariant of the spec's §3 and §8). -/
def allSwapsVerified (engine : SwapEngine) (l : List Swap) : Bool :=
  l.all (fun s => engine.verifySwap s)

/-- The zero `ethcom.Address` rendered by `Address.String()`; `createSwap`
stores it in both token-address columns, since the `bep20Addr` and
`erc20Addr` variables are never assigned. -/
def zeroAddressStr : String := "0x0000000000000000000000000000000000000000"

/-- `(engine *SwapEngine) createSwap`: build a `Swap` row from an observed
`SwapStartTxLog`.  The direction ladder, the amount validation and the log
message mirror the source line by line (including the misspelling
`unrecongnized` in the error text). -/
def createSwap (txEventLog : SwapStartTxLog) : Swap :=
  let swapDirection : Direction :=
    if txEventLog.chain = ChainBSC then
      (if txEventLog.toChainId = "1" ∨ txEventLog.toChainId = "4" then .bsc2eth else .bsc2matic)
    else if txEventLog.chain = ChainETH then
      (if txEventLog.toChainId = "56" ∨ txEventLog.toChainId = "97" then .eth2bsc else .eth2matic)
    else if txEventLog.chain = ChainMATIC then
      (if txEventLog.toChainId = "56" ∨ txEventLog.toChainId = "97" then .matic2bsc else .matic2eth)
    else .bsc2eth
  let parsed := goSetStringBase10 txEventLog.amount
  let swapStatus : SwapStatus := if parsed.isSome then .tokenReceived else .quoteRejected
  let log : String :=
    if parsed.isSome then "" else "unrecongnized swap amount: " ++ txEventLog.amount
  { id := 0
    status := swapStatus
    sponsor := txEventLog.fromAddress
    toChainId := txEventLog.toChainId
    bep20Addr := zeroAddressStr
    erc20Addr := zeroAddressStr
    symbol := ""
    amount := txEventLog.amount
    decimals := 0
    direction := swapDirection
    startTxHash := txEventLog.txHash
    fillTxHash := ""
    log := log
    recordHash := "" }

/-- `(engine *SwapEngine) getSwapByStartTxHash`: load the first `Swap` row
with this `start_tx_hash` and verify its MAC; `none` models the Go error
return (row not found, or `hmac verification failure`). -/
def SwapEngine.getSwapByStartTxHash (engine : SwapEngine) (swaps : List Swap)
    (txHash : String) : Option Swap :=
  match swaps.find? (fun s => s.startTxHash == txHash) with
  | none => none
  | some s => if engine.verifySwap s then some s else none

/-- The claim/adopt/revert transaction of `swapInstanceDaemon` for one
selected swap (the closure returning `(isSkip, error)`): a `Sending` swap
with no fill row (gorm `First` into a zero value leaves `FillSwapTxHash`
empty) is reverted to `Confirmed`; a `Sending` swap with a fill row carrying
a non-empty hash adopts it — the fill rows with that hash are marked `Sent`,
the swap becomes `Sent` with that `fill_tx_hash`, and `isSkip` is set; a
`Confirmed` swap is advanced to `Sending`.  Returns `(isSkip, new state)`. -/
def swapClaimStep (engine : SwapEngine) (db : DBState) (swap : Swap) : Bool × DBState :=
  if swap.status == .sending then
    let swapTx? := db.fillTxs.find? (fun t => t.startSwapTxHash == swap.startTxHash)
    let fillHash : String := match swapTx? with
      | none => ""
      | some t => t.fillSwapTxHash
    if fillHash == "" then
      (false, { db with swaps := engine.updateSwap { swap with status := .confirmed } db.swaps })
    else
      (true,
        { fillTxs := db.fillTxs.map (fun r =>
            if r.fillSwapTxHash == fillHash then { r with status := .sent } else r)
          swaps := engine.updateSwap
            { swap with status := .sent, fillTxHash := fillHash } db.swaps })
  else
    (false, { db with swaps := engine.updateSwap { swap with status := .sending } db.swaps })

/-- Modelled from go-ethereum: the message of `core.ErrReplaceUnderpriced`,
the sentinel the filler compares broadcast errors against by string
equality. -/
def replaceUnderpricedMsg : String := "replacement transaction underpriced"

/-- The externally produced signed transaction of `doSwap`: its hash and gas
price are the only attributes the engine persists.  ABI encoding, nonce
assignment and signing are RPC/crypto effects outside the store and are
abstracted by this record. -/
structure BuildResult where
  txHash : String
  gasPrice : String
deriving DecidableEq, Repr

/-- `(engine *SwapEngine) doSwap`: validate the amount and chain-id strings,
build and sign a fill transaction (abstracted by `built`, with `buildErr?`
standing for an ABI/signing failure, which precedes the row insert), insert
a `SwapFillTx{status=Created}` row in its own transaction, then broadcast
(`broadcastErr?` standing for the `SendTransaction` result).  On any error —
including a broadcast error after the row was inserted — the Go function
returns a `nil` fill-tx pointer together with the error; the three
destination-chain branches are identical with respect to the store. -/
def doSwap (built : BuildResult) (buildErr? : Option String) (broadcastErr? : Option String)
    (nextId : Nat) (swap : Swap) (db : DBState) :
    DBState × Option SwapFillTx × Option String :=
  if (goSetStringBase10 swap.amount).isNone then
    (db, none, some ("invalid swap amount: " ++ swap.amount))
  else if (goSetStringBase10 swap.toChainId).isNone then
    (db, none, some ("invalid chainId: " ++ swap.toChainId))
  else
    match buildErr? with
    | some e => (db, none, some e)
    | none =>
      let swapTx : SwapFillTx :=
        { id := nextId
          direction := swap.direction
          startSwapTxHash := swap.startTxHash
          fillSwapTxHash := built.txHash
          gasPrice := built.gasPrice
          height := 0
          consumedFeeAmount := ""
          status := .created
          trackRetryCounter := 0 }
      let db' := { db with fillTxs := db.fillTxs ++ [swapTx] }
      match broadcastErr? with
      | some e => (db', none, some e)
      | none => (db', some swapTx, none)

/-- The write-back transaction of `swapInstanceDaemon` after `doSwap`
returns `(swapTx, swapErr)`.  On the `ReplaceUnderpriced` error the source
reads `swapTx.FillSwapTxHash` without a `nil` check; since `doSwap` returns
a `nil` pointer with every error, that branch dereferences `nil` — modelled
by the result `none` (the goroutine panics, nothing is written).  On any
other error the `swapTx != nil` guard skips the fill-row update, the swap
becomes `SendFailed` with the reason logged; on success the fill rows are
marked `Sent` and the swap becomes `Sent`. -/
def handleDoSwapResult (engine : SwapEngine) (db : DBState) (swap : Swap)
    (swapTx? : Option SwapFillTx) (swapErr? : Option String) : Option DBState :=
  match swapErr? with
  | some errMsg =>
    if errMsg == replaceUnderpricedMsg then
      match swapTx? with
      | none => none
      | some t =>
        some { fillTxs := db.fillTxs.filter (fun r => !(r.fillSwapTxHash == t.fillSwapTxHash))
               swaps := engine.updateSwap
                 { swap with status := .confirmed,
                             log := "do swap failure: " ++ errMsg } db.swaps }
    else
      let fills : List SwapFillTx := match swapTx? with
        | some t => db.fillTxs.map (fun r =>
            if r.fillSwapTxHash == t.fillSwapTxHash then { r with status := .failed } else r)
        | none => db.fillTxs
      let fillTxHash : String := match swapTx? with
        | some t => t.fillSwapTxHash
        | none => ""
      some { fillTxs := fills
             swaps := engine.updateSwap
               { swap with status := .sendFailed, fillTxHash := fillTxHash,
                           log := "do swap failure: " ++ errMsg } db.swaps }
  | none =>
    match swapTx? with
    | none => none
    | some t =>
      some { fillTxs := db.fillTxs.map (fun r =>
               if r.fillSwapTxHash == t.fillSwapTxHash then { r with status := .sent } else r)
             swaps := engine.updateSwap
               { swap with status := .sent, fillTxHash := t.fillSwapTxHash } db.swaps }

/-- The destination-chain receipt of a fill transaction, as returned by
`TransactionReceipt` (the RPC client is external). -/
structure Receipt where
  status : Nat
  blockNumber : Int
  gasUsed : Nat
  txHash : String
deriving DecidableEq, Repr

/-- Modelled from the spec and go-ethereum: the `TxFailedStatus` constant the
receipt status is compared against (`types.ReceiptStatusFailed = 0`); the
constant's definition lives outside the given source tree. -/
def TxFailedStatus : Nat := 0

/-- The `queryTxStatusErr` predicate of the receipt poller: the latest-block
query failed, the receipt query failed, or the receipt is not yet
`ETHConfirmNum` blocks deep (the source uses the ETH depth for every
chain). -/
def stillPending (engine : SwapEngine) (blockNumber? : Option Int)
    (receipt? : Option Receipt) : Bool :=
  match blockNumber?, receipt? with
  | some bn, some r => decide (bn < r.blockNumber + engine.ethConfirmNum)
  | _, _ => true

/-- The per-row transaction of the receipt poller in `trackSwapTxDaemon`,
given the RPC results (`none` models a failed call).  While the receipt is
unavailable or shallow, only `track_retry_counter` is bumped; otherwise the
fill row gets the final status, the receipt height and the consumed fee
`gasPrice × gasUsed`, and the corresponding swap is finalized in the same
transaction.  A failed swap lookup rolls the transaction back (state
unchanged).  Updated-at timestamps are not modelled. -/
def trackPollStep (engine : SwapEngine) (db : DBState) (swapTx : SwapFillTx)
    (blockNumber? : Option Int) (receipt? : Option Receipt) : DBState :=
  let gasPrice : Int := (goSetStringBase10 swapTx.gasPrice).getD 0
  if stillPending engine blockNumber? receipt? then
    { db with fillTxs := db.fillTxs.map (fun t =>
        if t.id == swapTx.id then { t with trackRetryCounter := t.trackRetryCounter + 1 }
        else t) }
  else
    match receipt? with
    | none => db
    | some r =>
      let txFee : String := toString (gasPrice * (r.gasUsed : Int))
      if r.status == TxFailedStatus then
        match engine.getSwapByStartTxHash db.swaps swapTx.startSwapTxHash with
        | none => db
        | some swap =>
          { fillTxs := db.fillTxs.map (fun t =>
              if t.id == swapTx.id then
                { t with status := .failed, height := r.blockNumber,
                         consumedFeeAmount := txFee }
              else t)
            swaps := engine.updateSwap
              { swap with status := .sendFailed, log := "fill tx is failed" } db.swaps }
      else
        match engine.getSwapByStartTxHash db.swaps swapTx.startSwapTxHash with
        | none => db
        | some swap =>
          { fillTxs := db.fillTxs.map (fun t =>
              if t.id == swapTx.id then
                { t with status := .success, height := r.blockNumber,
                         consumedFeeAmount := txFee }
              else t)
            swaps := engine.updateSwap { swap with status := .success } db.swaps }

/-- One positional argument of a `gorm` `Where` call on the `swap_fill_tx`
table. -/
inductive GormArg where
  | fillStatus (s : FillTxStatus)
  | dir (d : Direction)
  | num (n : Nat)
deriving DecidableEq, Repr

/-- Modelled from jinzhu/gorm: a
`Where("status = ? and direction = ? and track_retry_counter < ?", args...).Find`
call.  The three placeholders bind the arguments positionally, one per `?`;
when the argument list does not fit the placeholders (wrong count or a
direction where the numeric threshold belongs), the generated SQL statement
carries a mismatched bind-variable list, the database rejects it, `Find`
reports the error and leaves the result empty. -/
def findSentWhereDirCounterLT (args : List GormArg) (rows : List SwapFillTx) :
    List SwapFillTx :=
  match args with
  | [GormArg.fillStatus st, GormArg.dir d, GormArg.num m] =>
    rows.filter (fun r =>
      r.status == st && r.direction == d && decide (r.trackRetryCounter < m))
  | _ => []

/-- The receipt poller's per-destination-chain selection, as written in the
source: the condition string has three placeholders but FOUR arguments are
passed — the fill status, both directions, and the chain's `MaxTrackRetry` —
so the statement never selects a row.  `Order("id asc")` is the ambient list
order and `Limit(TrackSentTxBatchSize)` is the final `take`. -/
def pollerSelect (engine : SwapEngine) (direction1 direction2 : Direction)
    (maxTrackRetry : Nat) (rows : List SwapFillTx) : List SwapFillTx :=
  (findSentWhereDirCounterLT
      [GormArg.fillStatus .sent, GormArg.dir direction1, GormArg.dir direction2,
        GormArg.num maxTrackRetry] rows).take engine.trackSentTxBatchSize

/-- Modelled from the spec's words (§4.7 b): for a destination chain fed by
`direction1` and `direction2`, select the `SwapFillTx` rows with
`status=Sent AND direction∈{d1,d2} AND track_retry_counter < MaxTrackRetry`,
ordered by id, limited by `TrackSentTxBatchSize` — the selection the claim
asserts of the receipt poller, to be compared with `pollerSelect`. -/
def specReceiptPollerSelection (direction1 direction2 : Direction)
    (maxTrackRetry batchSize : Nat) (rows : List SwapFillTx) : List SwapFillTx :=
  (rows.filter (fun r =>
      r.status == .sent && (r.direction == direction1 || r.direction == direction2) &&
        decide (r.trackRetryCounter < maxTrackRetry))).take batchSize

/-- The chain-name/threshold ladder of the missing-tx reaper: the per-chain
`MaxTrackRetry` used in the log message (default ETH, overridden for a BSC
or MATIC destination). -/
def reaperMaxRetry (engine : SwapEngine) (d : Direction) : Nat :=
  let m := engine.ethMaxTrackRetry
  let m := if d == .eth2bsc || d == .matic2bsc then engine.bscMaxTrackRetry else m
  if d == .bsc2matic || d == .eth2matic then engine.maticMaxTrackRetry else m

/-- The missing-tx reaper's selection in `trackSwapTxDaemon`:
`status = Sent AND track_retry_counter >= ETHMaxTrackRetry` — the ETH
threshold is used for every row, whatever its direction — ordered by id,
limited by `TrackSentTxBatchSize`. -/
def reaperSelect (engine : SwapEngine) (rows : List SwapFillTx) : List SwapFillTx :=
  (rows.filter (fun r =>
      r.status == .sent && decide (engine.ethMaxTrackRetry ≤ r.trackRetryCounter))).take
    engine.trackSentTxBatchSize

/-- The reaper's log message for a reaped swap, formatted with the per-chain
threshold. -/
def reaperLog (maxRetry : Nat) : String :=
  "track fill tx for more than " ++ toString maxRetry ++
    " times, the fill tx status is still uncertain"

/-- The per-row transaction of the missing-tx reaper: mark the fill row
`Missing` and, in the same transaction, set the corresponding swap to
`SendFailed` with the uncertainty log; a failed (or MAC-rejected) swap
lookup rolls the transaction back. -/
def reapOne (engine : SwapEngine) (db : DBState) (swapTx : SwapFillTx) : DBState :=
  let maxRetry := reaperMaxRetry engine swapTx.direction
  match engine.getSwapByStartTxHash db.swaps swapTx.startSwapTxHash with
  | none => db
  | some swap =>
    { fillTxs := db.fillTxs.map (fun t =>
        if t.id == swapTx.id then { t with status := .missing } else t)
      swaps := engine.updateSwap
        { swap with status := .sendFailed, log := reaperLog maxRetry } db.swaps }

/-- One pass of the missing-tx reaper: select, then process each selected
row in its own transaction. -/
def reaperPass (engine : SwapEngine) (db : DBState) : DBState :=
  (reaperSelect engine db.fillTxs).foldl (reapOne engine) db

/-- A 20-byte `ethcom.Address`, as a big-endian byte list. -/
abbrev Addr := List Nat

/-- The numeric value of one hexadecimal digit, or `none`. -/
def hexCharVal (c : Char) : Option Nat :=
  if '0' ≤ c ∧ c ≤ '9' then some (c.toNat - 48)
  else if 'a' ≤ c ∧ c ≤ 'f' then some (c.toNat - 87)
  else if 'A' ≤ c ∧ c ≤ 'F' then some (c.toNat - 55)
  else none

/-- Hex decoding as in `common.Hex2Bytes`: decode digit pairs and stop at
the first invalid pair (the Go helper discards the `hex.DecodeString` error
and keeps the prefix decoded so far). -/
def hexDecodePairs : List Char → List Nat
  | c1 :: c2 :: rest =>
    match hexCharVal c1, hexCharVal c2 with
    | some hi, some lo => (16 * hi + lo) :: hexDecodePairs rest
    | _, _ => []
  | _ => []

/-- `ethcom.HexToAddress`: strip an optional `0x`/`0X`, left-pad to an even
number of digits, hex-decode, and keep the last 20 bytes left-padded with
zeros (`Address.SetBytes` crops from the left). -/
def hexToAddress (s : String) : Addr :=
  let cs : List Char := match s.toList with
    | '0' :: 'x' :: rest => rest
    | '0' :: 'X' :: rest => rest
    | l => l
  let cs := if cs.length % 2 = 1 then '0' :: cs else cs
  let bs := hexDecodePairs cs
  let bs := if 20 < bs.length then bs.drop (bs.length - 20) else bs
  List.replicate (20 - bs.length) 0 ++ bs

/-- A `model.SwapPair` row, the admin-surface input of the registry
mutators. -/
structure SwapPair where
  symbol : String
  name : String
  decimals : Int
  bep20Addr : String
  erc20Addr : String
  lowBound : String
  upperBound : String
  available : Bool
deriving DecidableEq, Repr

/-- An in-memory `SwapPairIns` registry entry. -/
structure SwapPairIns where
  symbol : String
  name : String
  decimals : Int
  lowBound : Int
  upperBound : Int
  bep20Addr : Addr
  erc20Addr : Addr
deriving DecidableEq, Repr

/-- Lookup in a Go map modelled as an association list (first match). -/
def mapLookup {β : Type} (m : List (Addr × β)) (k : Addr) : Option β :=
  match m.find? (fun e => e.1 == k) with
  | none => none
  | some e => some e.2

/-- Deletion from a Go map. -/
def mapErase {β : Type} (m : List (Addr × β)) (k : Addr) : List (Addr × β) :=
  m.filter (fun e => !(e.1 == k))

/-- Insertion/overwrite in a Go map. -/
def mapInsert {β : Type} (m : List (Addr × β)) (k : Addr) (v : β) : List (Addr × β) :=
  (k, v) :: mapErase m k

/-- The in-memory registry of the engine: the `SwapPairIns` map keyed by the
ERC20 token address, with the two mirror address maps; all three are guarded
by the engine mutex (not modelled — the mutators run sequentially here). -/
structure EngineMaps where
  swapPairsFromERC20Addr : List (Addr × SwapPairIns)
  bep20ToERC20 : List (Addr × Addr)
  erc20ToBEP20 : List (Addr × Addr)
deriving DecidableEq, Repr

/-- `(engine *SwapEngine) AddSwapPairInstance`: parse the bounds (note that
the source formats `LowBound` into the `upperBound` error message), then
store the instance under the pair's ERC20 address and refresh both mirror
maps. -/
def AddSwapPairInstance (st : EngineMaps) (swapPair : SwapPair) :
    Except String EngineMaps :=
  match goSetStringBase10 swapPair.lowBound with
  | none => .error ("invalid lowBound amount: " ++ swapPair.lowBound)
  | some lowBound =>
    match goSetStringBase10 swapPair.upperBound with
    | none => .error ("invalid upperBound amount: " ++ swapPair.lowBound)
    | some upperBound =>
      .ok
        { swapPairsFromERC20Addr :=
            mapInsert st.swapPairsFromERC20Addr (hexToAddress swapPair.erc20Addr)
              { symbol := swapPair.symbol
                name := swapPair.name
                decimals := swapPair.decimals
                lowBound := lowBound
                upperBound := upperBound
                bep20Addr := hexToAddress swapPair.bep20Addr
                erc20Addr := hexToAddress swapPair.erc20Addr }
          bep20ToERC20 :=
            mapInsert st.bep20ToERC20 (hexToAddress swapPair.bep20Addr)
              (hexToAddress swapPair.erc20Addr)
          erc20ToBEP20 :=
            mapInsert st.erc20ToBEP20 (hexToAddress swapPair.erc20Addr)
              (hexToAddress swapPair.bep20Addr) }

/-- `(engine *SwapEngine) UpdateSwapInstance`: look the instance up under
the pair's BEP20 address (the key `AddSwapPairInstance` never uses), return
silently when absent, delete under that key when the pair is unavailable,
and otherwise rewrite the bounds.  In the source the second `SetString` call
mutates the same `big.Int` that was just stored as the upper bound — so the
upper bound ends at the parsed `LowBound` value and the lower bound at the
untouched zero; a failed `SetString` leaves the value unspecified in Go and
is modelled as 0 (no claim exercises that branch). -/
def UpdateSwapInstance (st : EngineMaps) (swapPair : SwapPair) : EngineMaps :=
  let bscTokenAddr := hexToAddress swapPair.bep20Addr
  match mapLookup st.swapPairsFromERC20Addr bscTokenAddr with
  | none => st
  | some tokenInstance =>
    if !swapPair.available then
      { st with swapPairsFromERC20Addr := mapErase st.swapPairsFromERC20Addr bscTokenAddr }
    else
      let upperBoundFinal := (goSetStringBase10 swapPair.lowBound).getD 0
      let inst := { tokenInstance with upperBound := upperBoundFinal, lowBound := 0 }
      { st with swapPairsFromERC20Addr :=
          mapInsert st.swapPairsFromERC20Addr bscTokenAddr inst }

/-- Modelled from the spec's words (§4.4): the six-entry direction routing
table over observed source chain and declared destination chain-id, `none`
when the destination id is not in the table.  The chain-id sets are the
public ids of the three networks: ETH `{1, 4}`, BSC `{56, 97}`,
MATIC `{137, 80001}`. -/
def specRoutingTable (chain : String) (toChainId : String) : Option Direction :=
  let isEthId := toChainId = "1" ∨ toChainId = "4"
  let isBscId := toChainId = "56" ∨ toChainId = "97"
  let isMaticId := toChainId = "137" ∨ toChainId = "80001"
  if chain = ChainBSC then
    (if isEthId then some .bsc2eth else if isMaticId then some .bsc2matic else none)
  else if chain = ChainETH then
    (if isBscId then some .eth2bsc else if isMaticId then some .eth2matic else none)
  else if chain = ChainMATIC then
    (if isBscId then some .matic2bsc else if isEthId then some .matic2eth else none)
  else none

/-- Leading-match test on character lists. -/
def charsLeadMatch : List Char → List Char → Bool
  | [], _ => true
  | _ :: _, [] => false
  | c :: cs, d :: ds => c == d && charsLeadMatch cs ds

/-- Substring test on character lists. -/
def hasSubChars (pat : List Char) : List Char → Bool
  | [] => charsLeadMatch pat []
  | c :: rest => charsLeadMatch pat (c :: rest) || hasSubChars pat rest

/-- Substring test on strings. -/
def strContains (s pat : String) : Bool :=
  hasSubChars pat.toList s.toList

/-! ### Helper lemmas -/

/-- A row written with a freshly recomputed MAC verifies. -/
theorem verifySwap_write (engine : SwapEngine) (s : Swap) :
    engine.verifySwap { s with recordHash := engine.getSwapHMAC s } = true := by
  simp [SwapEngine.verifySwap, SwapEngine.getSwapHMAC, swapHMACMaterial]

/-- `saveSwapRow` preserves the at-rest MAC invariant when the saved row
verifies. -/
theorem allSwapsVerified_saveSwapRow (engine : SwapEngine) (s : Swap) (l : List Swap)
    (hs : engine.verifySwap s = true) (h : allSwapsVerified engine l = true) :
    allSwapsVerified engine (saveSwapRow s l) = true := by
  unfold allSwapsVerified at h ⊢
  unfold saveSwapRow
  split
  · rw [List.all_eq_true] at h ⊢
    intro r hr
    rw [List.mem_map] at hr
    obtain ⟨a, ha, rfl⟩ := hr
    split
    · exact hs
    · exact h a ha
  · rw [List.all_append, Bool.and_eq_true]
    exact ⟨h, by simp [hs]⟩

/-- A lookup that misses in a map also misses after a `filter`. -/
theorem mapLookup_filter_none {β : Type} (m : List (Addr × β)) (k : Addr)
    (p : Addr × β → Bool) (h : mapLookup m k = none) :
    mapLookup (m.filter p) k = none := by
  unfold mapLookup at h ⊢
  cases hm : m.find? (fun e => e.1 == k) with
  | none =>
    cases hf : (m.filter p).find? (fun e => e.1 == k) with
    | none => rfl
    | some e =>
      have he := List.find?_some hf
      have hmem := List.mem_of_find?_eq_some hf
      have hmem' := List.mem_of_mem_filter hmem
      have := List.find?_eq_none.mp hm e hmem'
      simp [he] at this
  | some e => rw [hm] at h; simp at h

/-- Inserting under one key does not make a lookup under a different key
hit. -/
theorem mapLookup_insert_ne {β : Type} (m : List (Addr × β)) (k k' : Addr) (v : β)
    (h : (k' == k) = false) (h2 : mapLookup m k = none) :
    mapLookup (mapInsert m k' v) k = none := by
  have h3 := mapLookup_filter_none m k (fun e => !(e.1 == k')) h2
  simp only [mapInsert, mapLookup, mapErase, List.find?_cons, h, cond_false] at h3 ⊢
  exact h3

/-! ### Concrete fixtures for witnesses and counterexamples -/

/-- A concrete engine instance: the HMAC primitive is instantiated by a
computable keyed tagging function so that witnesses can be evaluated. -/
def engC : SwapEngine :=
  { hmacCKey := "k"
    hmacHex := fun key material => key ++ "|" ++ material
    ethConfirmNum := 2
    ethMaxTrackRetry := 5
    bscMaxTrackRetry := 3
    maticMaxTrackRetry := 4
    trackSentTxBatchSize := 50 }

/-- A concrete swap row. -/
def swW : Swap :=
  { id := 1
    status := .confirmed
    sponsor := "0xaa"
    toChainId := "56"
    bep20Addr := "0xb"
    erc20Addr := "0xe"
    symbol := "TKN"
    amount := "1000"
    decimals := 18
    direction := .eth2bsc
    startTxHash := "0xstart"
    fillTxHash := ""
    log := ""
    recordHash := "" }

/-! ### C1 -/

/-- C1: every swap row the engine writes carries `record_hash` equal to the
keyed MAC (hex HMAC-SHA-256) of the ten fields status, sponsor, BEP20
(source-token) address, ERC20 (destination-token) address, symbol, amount,
decimals, direction, start_tx_hash, fill_tx_hash joined in that fixed order
by `#`; `insertSwap` and `updateSwap` recompute and store the MAC in the
same write, so a table in which every row verifies still verifies after
either operation, the at-rest invariant `MAC(key, canonical(s)) =
s.record_hash` being preserved. -/
theorem c1_record_hash_invariant (engine : SwapEngine) (l : List Swap) (s t : Swap)
    (h : allSwapsVerified engine l = true) :
    engine.getSwapHMAC s = engine.hmacHex engine.hmacCKey (swapHMACMaterial s) ∧
    allSwapsVerified engine (engine.insertSwap s l) = true ∧
    allSwapsVerified engine (engine.updateSwap t l) = true := by
  refine ⟨rfl, ?_, ?_⟩
  · unfold allSwapsVerified at h ⊢
    unfold SwapEngine.insertSwap
    rw [List.all_append, Bool.and_eq_true]
    exact ⟨h, by simp [verifySwap_write]⟩
  · exact allSwapsVerified_saveSwapRow engine _ l (verifySwap_write engine t) h

/-- Witness for C1 at a concrete engine, table and row. -/
theorem c1_record_hash_invariant_witness :
    allSwapsVerified engC [] = true ∧
    (engC.getSwapHMAC swW = engC.hmacHex engC.hmacCKey (swapHMACMaterial swW) ∧
      allSwapsVerified engC (engC.insertSwap swW []) = true ∧
      allSwapsVerified engC (engC.updateSwap swW []) = true) :=
  ⟨by decide, c1_record_hash_invariant engC [] swW swW (by decide)⟩

/-! ### C2 -/

/-- A concrete swap stuck in `Sending`. -/
def swSending : Swap := { swW with status := .sending }

/-- A concrete fill row for `swSending`'s start hash. -/
def ftC2 : SwapFillTx :=
  { id := 1
    direction := .eth2bsc
    startSwapTxHash := "0xstart"
    fillSwapTxHash := "0xfill"
    gasPrice := "5"
    height := 0
    consumedFeeAmount := ""
    status := .created
    trackRetryCounter := 0 }

/-- C2: selected `Sending` swaps: with no `SwapFillTx` row for the swap's
start hash the transaction reverts the swap to `Confirmed` (no skip); with a
fill row carrying a non-empty `fill_swap_tx_hash` the fill rows with that
hash are marked `Sent`, the swap becomes `Sent` with `fill_tx_hash` equal to
that hash, and the skip flag is set, so the pass builds no second fill
transaction for it. -/
theorem c2_sending_recovery (engine : SwapEngine) (db : DBState) (swap : Swap)
    (h : swap.status = .sending) :
    (db.fillTxs.find? (fun t => t.startSwapTxHash == swap.startTxHash) = none →
      swapClaimStep engine db swap =
        (false,
          { db with swaps := engine.updateSwap { swap with status := .confirmed } db.swaps })) ∧
    (∀ t, db.fillTxs.find? (fun t => t.startSwapTxHash == swap.startTxHash) = some t →
      t.fillSwapTxHash ≠ "" →
      swapClaimStep engine db swap =
        (true,
          { fillTxs := db.fillTxs.map (fun r =>
              if r.fillSwapTxHash == t.fillSwapTxHash then { r with status := FillTxStatus.sent }
              else r)
            swaps := engine.updateSwap
              { swap with status := .sent, fillTxHash := t.fillSwapTxHash } db.swaps })) := by
  constructor
  · intro hf
    simp [swapClaimStep, h, hf]
  · intro t hf hne
    simp [swapClaimStep, h, hf, hne]

/-- Witness for C2: the revert case on an empty fill table and the adopt
case on a table holding `ftC2`. -/
theorem c2_sending_recovery_witness :
    (swapClaimStep engC { swaps := [swSending], fillTxs := [] } swSending =
      (false,
        { swaps := engC.updateSwap { swSending with status := .confirmed } [swSending]
          fillTxs := [] })) ∧
    (swapClaimStep engC { swaps := [swSending], fillTxs := [ftC2] } swSending =
      (true,
        { fillTxs := [ftC2].map (fun r =>
            if r.fillSwapTxHash == ftC2.fillSwapTxHash then { r with status := FillTxStatus.sent }
            else r)
          swaps := engC.updateSwap
            { swSending with status := .sent, fillTxHash := ftC2.fillSwapTxHash } [swSending] })) :=
  ⟨(c2_sending_recovery engC { swaps := [swSending], fillTxs := [] } swSending (by decide)).1
      (by decide),
    (c2_sending_recovery engC { swaps := [swSending], fillTxs := [ftC2] } swSending
        (by decide)).2 ftC2 (by decide) (by decide)⟩

/-! ### C3 -/

/-- A concrete swap the filler is about to fill. -/
def swC3 : Swap :=
  { swW with id := 2, status := .sending, startTxHash := "0xs3" }

/-- The signed transaction the builder produces for `swC3`. -/
def builtC3 : BuildResult := { txHash := "0xf3", gasPrice := "7" }

/-- `doSwap` on `swC3` when the broadcast is rejected with
`ReplaceUnderpriced`. -/
def runC3 : DBState × Option SwapFillTx × Option String :=
  doSwap builtC3 none (some replaceUnderpricedMsg) 1 swC3 { swaps := [swC3], fillTxs := [] }

/-- The fill row `doSwap` inserts for `swC3` before broadcasting. -/
def fillC3 : SwapFillTx :=
  { id := 1
    direction := swC3.direction
    startSwapTxHash := swC3.startTxHash
    fillSwapTxHash := builtC3.txHash
    gasPrice := builtC3.gasPrice
    height := 0
    consumedFeeAmount := ""
    status := .created
    trackRetryCounter := 0 }

/-- C3: when the broadcast fails with `ReplaceUnderpriced`, `doSwap` has
already inserted the `SwapFillTx{status=Created}` row but returns a `nil`
fill-tx pointer with the error; the handler's `ReplaceUnderpriced` branch
then reads `swapTx.FillSwapTxHash` without a `nil` check and panics
(result `none`): the just-inserted row is never deleted and the swap is
never reverted to `Confirmed`. -/
theorem c3_replace_underpriced_panics :
    runC3.2.1 = none ∧
    runC3.2.2 = some replaceUnderpricedMsg ∧
    runC3.1.fillTxs = [fillC3] ∧
    fillC3.status = FillTxStatus.created ∧
    handleDoSwapResult engC runC3.1 swC3 runC3.2.1 runC3.2.2 = none := by
  decide

/-! ### C4 -/

/-- A concrete swap whose broadcast will be rejected. -/
def swC4 : Swap :=
  { swW with id := 3, status := .sending, startTxHash := "0xs4" }

/-- The signed transaction the builder produces for `swC4`. -/
def builtC4 : BuildResult := { txHash := "0xf4", gasPrice := "9" }

/-- `doSwap` on `swC4` when the broadcast is rejected with
`insufficient funds`. -/
def runC4 : DBState × Option SwapFillTx × Option String :=
  doSwap builtC4 none (some "insufficient funds") 1 swC4 { swaps := [swC4], fillTxs := [] }

/-- The fill row `doSwap` inserts for `swC4` before broadcasting. -/
def fillC4 : SwapFillTx :=
  { id := 1
    direction := swC4.direction
    startSwapTxHash := swC4.startTxHash
    fillSwapTxHash := builtC4.txHash
    gasPrice := builtC4.gasPrice
    height := 0
    consumedFeeAmount := ""
    status := .created
    trackRetryCounter := 0 }

/-- C4: when the broadcast fails with an error other than
`ReplaceUnderpriced`, `doSwap` returns a `nil` fill-tx pointer, so the
handler's `swapTx != nil` guard skips the fill-row update: the swap is set
to `SendFailed` with the reason logged and an empty `fill_tx_hash`, but the
just-inserted `SwapFillTx` row keeps `status=Created` — it is never marked
`Failed` as the claim states. -/
theorem c4_broadcast_error_leaves_fill_created :
    runC4.2.1 = none ∧
    runC4.1.fillTxs = [fillC4] ∧
    handleDoSwapResult engC runC4.1 swC4 runC4.2.1 runC4.2.2 =
      some
        { fillTxs := [fillC4]
          swaps := engC.updateSwap
            { swC4 with status := .sendFailed, fillTxHash := "",
                        log := "do swap failure: insufficient funds" } [swC4] } ∧
    fillC4.status = FillTxStatus.created ∧
    runC4.1.fillTxs.all (fun t => !(t.status == FillTxStatus.failed)) = true := by
  decide

/-! ### C5 -/

/-- A concrete tracked `Sent` fill row. -/
def ftC5 : SwapFillTx :=
  { id := 1
    direction := .bsc2eth
    startSwapTxHash := "0xstart"
    fillSwapTxHash := "0xfill"
    gasPrice := "5"
    height := 0
    consumedFeeAmount := ""
    status := .sent
    trackRetryCounter := 0 }

/-- The `Sent` swap behind `ftC5`, before its MAC is stamped. -/
def swC5 : Swap :=
  { swW with id := 4, status := .sent, fillTxHash := "0xfill" }

/-- `swC5` with a valid `record_hash`, as a writer would persist it. -/
def swC5v : Swap := { swC5 with recordHash := engC.getSwapHMAC swC5 }

/-- The store the finalizer operates on in the C5 witness. -/
def dbC5 : DBState := { swaps := [swC5v], fillTxs := [ftC5] }

/-- A successful receipt for `ftC5`. -/
def rcOK : Receipt := { status := 1, blockNumber := 10, gasUsed := 3, txHash := "0xfill" }

/-- A failed receipt for `ftC5`. -/
def rcBad : Receipt := { status := 0, blockNumber := 10, gasUsed := 3, txHash := "0xfill" }

/-- C5: the receipt poller's per-row transaction — when the latest block or
the receipt is unavailable, or the receipt is not yet `ConfirmDepth` blocks
behind the current block, only `track_retry_counter` is incremented and the
row is otherwise unchanged; when the receipt is final and its status is not
the failed status, the fill row gets `status=Success`, `height` and
`consumed_fee_amount = gasPrice × gasUsed` and the swap becomes `Success`;
when the final receipt's status is failed, the fill row gets `status=Failed`
with the same height and fee and the swap becomes `SendFailed` with
`log="fill tx is failed"`. -/
theorem c5_receipt_finalization (engine : SwapEngine) (db : DBState) (swapTx : SwapFillTx) :
    (∀ blockNumber? receipt?, stillPending engine blockNumber? receipt? = true →
      trackPollStep engine db swapTx blockNumber? receipt? =
        { db with fillTxs := db.fillTxs.map (fun t =>
            if t.id == swapTx.id then { t with trackRetryCounter := t.trackRetryCounter + 1 }
            else t) }) ∧
    (∀ bn r swap, stillPending engine (some bn) (some r) = false →
      engine.getSwapByStartTxHash db.swaps swapTx.startSwapTxHash = some swap →
      r.status ≠ TxFailedStatus →
      trackPollStep engine db swapTx (some bn) (some r) =
        { fillTxs := db.fillTxs.map (fun t =>
            if t.id == swapTx.id then
              { t with status := FillTxStatus.success, height := r.blockNumber,
                       consumedFeeAmount :=
                         toString (((goSetStringBase10 swapTx.gasPrice).getD 0) * (r.gasUsed : Int)) }
            else t)
          swaps := engine.updateSwap { swap with status := .success } db.swaps }) ∧
    (∀ bn r swap, stillPending engine (some bn) (some r) = false →
      engine.getSwapByStartTxHash db.swaps swapTx.startSwapTxHash = some swap →
      r.status = TxFailedStatus →
      trackPollStep engine db swapTx (some bn) (some r) =
        { fillTxs := db.fillTxs.map (fun t =>
            if t.id == swapTx.id then
              { t with status := FillTxStatus.failed, height := r.blockNumber,
                       consumedFeeAmount :=
                         toString (((goSetStringBase10 swapTx.gasPrice).getD 0) * (r.gasUsed : Int)) }
            else t)
          swaps := engine.updateSwap
            { swap with status := .sendFailed, log := "fill tx is failed" } db.swaps }) := by
  refine ⟨?_, ?_, ?_⟩
  · intro blockNumber? receipt? hp
    simp [trackPollStep, hp]
  · intro bn r swap hp hswap hne
    have hb : (r.status == TxFailedStatus) = false := by
      simpa using hne
    simp [trackPollStep, hp, hswap, hb]
  · intro bn r swap hp hswap heq
    simp [trackPollStep, hp, hswap, heq]

/-- Witness for C5: the three branches at concrete inputs — a shallow
receipt bumps only the counter, a deep successful receipt finalizes to
`Success`, a deep failed receipt finalizes to `SendFailed`. -/
theorem c5_receipt_finalization_witness :
    (trackPollStep engC dbC5 ftC5 (some 11) (some rcOK) =
      { dbC5 with fillTxs := dbC5.fillTxs.map (fun t =>
          if t.id == ftC5.id then { t with trackRetryCounter := t.trackRetryCounter + 1 }
          else t) }) ∧
    (trackPollStep engC dbC5 ftC5 (some 12) (some rcOK) =
      { fillTxs := dbC5.fillTxs.map (fun t =>
          if t.id == ftC5.id then
            { t with status := FillTxStatus.success, height := rcOK.blockNumber,
                     consumedFeeAmount :=
                       toString (((goSetStringBase10 ftC5.gasPrice).getD 0) * (rcOK.gasUsed : Int)) }
          else t)
        swaps := engC.updateSwap { swC5v with status := .success } dbC5.swaps }) ∧
    (trackPollStep engC dbC5 ftC5 (some 12) (some rcBad) =
      { fillTxs := dbC5.fillTxs.map (fun t =>
          if t.id == ftC5.id then
            { t with status := FillTxStatus.failed, height := rcBad.blockNumber,
                     consumedFeeAmount :=
                       toString (((goSetStringBase10 ftC5.gasPrice).getD 0) * (rcBad.gasUsed : Int)) }
          else t)
        swaps := engC.updateSwap
          { swC5v with status := .sendFailed, log := "fill tx is failed" } dbC5.swaps }) :=
  ⟨(c5_receipt_finalization engC dbC5 ftC5).1 (some 11) (some rcOK) (by decide),
    (c5_receipt_finalization engC dbC5 ftC5).2.1 12 rcOK swC5v (by decide) (by decide) (by decide),
    (c5_receipt_finalization engC dbC5 ftC5).2.2 12 rcBad swC5v (by decide) (by decide) (by decide)⟩

/-! ### C6 -/

/-- A `Sent` fill row that the spec's poller selection would pick for the
ETH destination. -/
def ftC6 : SwapFillTx :=
  { id := 1
    direction := .matic2eth
    startSwapTxHash := "0xs6"
    fillSwapTxHash := "0xf6"
    gasPrice := "5"
    height := 0
    consumedFeeAmount := ""
    status := .sent
    trackRetryCounter := 0 }

/-- C6: the receipt poller's selection passes four arguments — the status,
both directions and the retry threshold — to a condition with three
placeholders, so the statement is rejected and no row is ever selected,
while the spec's intended selection (`status=Sent AND direction∈{d1,d2} AND
track_retry_counter < MaxTrackRetry`) picks the row. -/
theorem c6_poller_selection_broken :
    pollerSelect engC .bsc2eth .matic2eth engC.ethMaxTrackRetry [ftC6] = [] ∧
    specReceiptPollerSelection .bsc2eth .matic2eth engC.ethMaxTrackRetry
      engC.trackSentTxBatchSize [ftC6] = [ftC6] := by
  decide

/-! ### C7 -/

/-- A `Sent` fill row towards BSC whose counter has reached the BSC
threshold (3) but not the ETH threshold (5) of `engC`. -/
def ftC7 : SwapFillTx :=
  { id := 1
    direction := .eth2bsc
    startSwapTxHash := "0xs7"
    fillSwapTxHash := "0xf7"
    gasPrice := "5"
    height := 0
    consumedFeeAmount := ""
    status := .sent
    trackRetryCounter := 3 }

/-- The store holding only `ftC7`. -/
def dbC7 : DBState := { swaps := [], fillTxs := [ftC7] }

/-- Counterexample to C7 as stated: `ftC7` has reached its destination
chain's per-chain threshold (`BSCMaxTrackRetry = 3`), yet the reaper —
whose selection compares every row against `ETHMaxTrackRetry = 5` — selects
nothing and a full pass leaves the row `Sent` and the store unchanged. -/
theorem c7_per_chain_threshold_cex :
    ftC7.status = FillTxStatus.sent ∧
    reaperMaxRetry engC ftC7.direction ≤ ftC7.trackRetryCounter ∧
    reaperSelect engC dbC7.fillTxs = [] ∧
    reaperPass engC dbC7 = dbC7 := by
  decide

/-- C7 (amended): the reaper's selection threshold is the ETH chain's
`MaxTrackRetry` for every row regardless of its destination; every selected
row has `status=Sent` and a counter at or above that single threshold, and —
when the corresponding swap loads and MAC-verifies — the row is marked
`Missing` and the swap set to `SendFailed`, with a log citing the per-chain
threshold, in the same transaction. -/
theorem c7_reaper_amended (engine : SwapEngine) (db : DBState) (swapTx : SwapFillTx)
    (swap : Swap) (hmem : swapTx ∈ reaperSelect engine db.fillTxs)
    (hswap : engine.getSwapByStartTxHash db.swaps swapTx.startSwapTxHash = some swap) :
    swapTx.status = FillTxStatus.sent ∧
    engine.ethMaxTrackRetry ≤ swapTx.trackRetryCounter ∧
    reapOne engine db swapTx =
      { fillTxs := db.fillTxs.map (fun t =>
          if t.id == swapTx.id then { t with status := FillTxStatus.missing } else t)
        swaps := engine.updateSwap
          { swap with status := .sendFailed,
                      log := reaperLog (reaperMaxRetry engine swapTx.direction) } db.swaps } := by
  have hmem' : swapTx ∈ db.fillTxs.filter (fun r =>
      r.status == FillTxStatus.sent &&
        decide (engine.ethMaxTrackRetry ≤ r.trackRetryCounter)) :=
    List.take_subset _ _ hmem
  rw [List.mem_filter] at hmem'
  have hpred := hmem'.2
  rw [Bool.and_eq_true] at hpred
  refine ⟨by simpa using hpred.1, by simpa using hpred.2, ?_⟩
  simp [reapOne, hswap]

/-- A fill row at the ETH threshold, reaped in the C7 witness. -/
def ftC7w : SwapFillTx := { ftC7 with id := 2, trackRetryCounter := 5, startSwapTxHash := "0xs7w" }

/-- The swap behind `ftC7w`, before its MAC is stamped. -/
def swC7 : Swap := { swW with id := 5, status := .sent, startTxHash := "0xs7w" }

/-- `swC7` with a valid `record_hash`. -/
def swC7v : Swap := { swC7 with recordHash := engC.getSwapHMAC swC7 }

/-- The store of the C7 witness. -/
def dbC7w : DBState := { swaps := [swC7v], fillTxs := [ftC7w] }

/-- Witness for the amended C7 at a concrete store. -/
theorem c7_reaper_amended_witness :
    ftC7w.status = FillTxStatus.sent ∧
    engC.ethMaxTrackRetry ≤ ftC7w.trackRetryCounter ∧
    reapOne engC dbC7w ftC7w =
      { fillTxs := dbC7w.fillTxs.map (fun t =>
          if t.id == ftC7w.id then { t with status := FillTxStatus.missing } else t)
        swaps := engC.updateSwap
          { swC7v with status := .sendFailed,
                       log := reaperLog (reaperMaxRetry engC ftC7w.direction) } dbC7w.swaps } :=
  c7_reaper_amended engC dbC7w ftC7w swC7v (by decide) (by decide)

/-! ### C8 -/

/-- An observed lock event on BSC declaring a destination chain-id that is
in no routing table. -/
def logC8 : SwapStartTxLog :=
  { id := 1
    chain := ChainBSC
    txHash := "0xl8"
    fromAddress := "0xa"
    amount := "1"
    toChainId := "999"
    height := 5 }

/-- A lock event on BSC declaring the ETH mainnet chain-id. -/
def logC8e : SwapStartTxLog := { logC8 with id := 2, txHash := "0xl8e", toChainId := "1" }

/-- A lock event observed on ETH. -/
def logC8f : SwapStartTxLog := { logC8 with id := 3, txHash := "0xl8f", chain := ChainETH }

/-- A lock event observed on MATIC. -/
def logC8g : SwapStartTxLog := { logC8 with id := 4, txHash := "0xl8g", chain := ChainMATIC }

/-- Counterexample to C8 as stated: `to_chain_id = "999"` is in no routing
table, yet the created swap is `TokenReceived` (not `QuoteRejected`) with
the fallback direction `BSC2MATIC`. -/
theorem c8_unknown_chain_id_cex :
    specRoutingTable ChainBSC "999" = none ∧
    (createSwap logC8).status = SwapStatus.tokenReceived ∧
    (createSwap logC8).direction = Direction.bsc2matic := by
  decide

/-- C8 (amended): the created swap's direction follows the source's ladder —
from BSC, `to_chain_id ∈ {1,4}` gives `BSC2Eth` and anything else gives
`BSC2MATIC`; from ETH, `∈ {56,97}` gives `Eth2BSC` else `Eth2MATIC`; from
MATIC, `∈ {56,97}` gives `MATIC2BSC` else `MATIC2Eth` — so on the six
in-table pairs it agrees with the spec's routing table, but an unknown
`to_chain_id` falls into the else-direction of its source chain and the
status never becomes `QuoteRejected` on that account: rejection depends
only on the amount parse. -/
theorem c8_direction_routing_amended (l : SwapStartTxLog) :
    (l.chain = ChainBSC →
      (createSwap l).direction =
        (if l.toChainId = "1" ∨ l.toChainId = "4" then .bsc2eth else .bsc2matic)) ∧
    (l.chain = ChainETH →
      (createSwap l).direction =
        (if l.toChainId = "56" ∨ l.toChainId = "97" then .eth2bsc else .eth2matic)) ∧
    (l.chain = ChainMATIC →
      (createSwap l).direction =
        (if l.toChainId = "56" ∨ l.toChainId = "97" then .matic2bsc else .matic2eth)) ∧
    (∀ d, specRoutingTable l.chain l.toChainId = some d → (createSwap l).direction = d) ∧
    ((createSwap l).status = SwapStatus.quoteRejected ↔ goSetStringBase10 l.amount = none) := by
  refine ⟨?_, ?_, ?_, ?_, ?_⟩
  · intro h
    simp [createSwap, h, ChainBSC]
  · intro h
    simp [createSwap, h, ChainBSC, ChainETH]
  · intro h
    simp [createSwap, h, ChainBSC, ChainETH, ChainMATIC]
  · intro d hd
    unfold specRoutingTable at hd
    unfold createSwap
    by_cases h1 : l.chain = ChainBSC <;>
      by_cases h4 : l.chain = ChainETH <;>
        by_cases h5 : l.chain = ChainMATIC <;>
          by_cases ha : l.toChainId = "1" ∨ l.toChainId = "4" <;>
            by_cases hb : l.toChainId = "56" ∨ l.toChainId = "97" <;>
              by_cases hc : l.toChainId = "137" ∨ l.toChainId = "80001" <;>
                simp_all [ChainBSC, ChainETH, ChainMATIC]
  · unfold createSwap
    cases h : goSetStringBase10 l.amount <;> simp [h]

/-- Witness for the amended C8: the four chain cases and a routing-table
hit at concrete lock events. -/
theorem c8_direction_routing_amended_witness :
    ((createSwap logC8).direction =
      (if logC8.toChainId = "1" ∨ logC8.toChainId = "4" then .bsc2eth else .bsc2matic)) ∧
    ((createSwap logC8f).direction =
      (if logC8f.toChainId = "56" ∨ logC8f.toChainId = "97" then .eth2bsc else .eth2matic)) ∧
    ((createSwap logC8g).direction =
      (if logC8g.toChainId = "56" ∨ logC8g.toChainId = "97" then .matic2bsc else .matic2eth)) ∧
    ((createSwap logC8e).direction = Direction.bsc2eth) :=
  ⟨(c8_direction_routing_amended logC8).1 (by decide),
    (c8_direction_routing_amended logC8f).2.1 (by decide),
    (c8_direction_routing_amended logC8g).2.2.1 (by decide),
    (c8_direction_routing_amended logC8e).2.2.2.1 Direction.bsc2eth (by decide)⟩

/-! ### C9 -/

/-- A lock event carrying the negative amount `"-1"`. -/
def logC9a : SwapStartTxLog :=
  { id := 6
    chain := ChainBSC
    txHash := "0xl9a"
    fromAddress := "0xa"
    amount := "-1"
    toChainId := "1"
    height := 6 }

/-- A lock event carrying the unparseable amount `"abc"`. -/
def logC9b : SwapStartTxLog := { logC9a with id := 7, txHash := "0xl9b", amount := "abc" }

/-- Counterexample to C9 as stated: the amount `"-1"` parses under
`big.Int.SetString(s, 10)` to the negative value `-1`, yet the swap is
created `TokenReceived` — acceptance is not restricted to non-negative
integers; and for the unparseable `"abc"` the stored log reads
`unrecongnized swap amount: abc` (the source misspells the word), which
does not contain the claimed phrase `unrecognized swap amount`. -/
theorem c9_amount_validation_cex :
    (createSwap logC9a).status = SwapStatus.tokenReceived ∧
    goSetStringBase10 "-1" = some (-1) ∧
    (createSwap logC9b).status = SwapStatus.quoteRejected ∧
    (createSwap logC9b).log = "unrecongnized swap amount: abc" ∧
    strContains (createSwap logC9b).log "unrecognized swap amount" = false := by
  decide

/-- C9 (amended): the swap is created `TokenReceived` exactly when the
amount string parses under Go's `big.Int.SetString(amount, 10)` — an
optional sign followed by decimal digits, so negative amounts are accepted
too (and `"0"` in particular); otherwise it is created `QuoteRejected` with
the log `unrecongnized swap amount: ` (spelled as in the source) followed by
the offending string. -/
theorem c9_amount_validation_amended (l : SwapStartTxLog) :
    ((createSwap l).status = SwapStatus.tokenReceived ↔
      (goSetStringBase10 l.amount).isSome = true) ∧
    (goSetStringBase10 l.amount = none →
      (createSwap l).status = SwapStatus.quoteRejected ∧
      (createSwap l).log = "unrecongnized swap amount: " ++ l.amount) := by
  constructor
  · unfold createSwap
    cases h : goSetStringBase10 l.amount <;> simp [h]
  · intro h
    simp [createSwap, h]

/-- Witness for the amended C9: `"0"` is accepted and `"abc"` is rejected
with the misspelled log. -/
theorem c9_amount_validation_amended_witness :
    ((createSwap { logC9a with amount := "0" }).status = SwapStatus.tokenReceived ↔
      (goSetStringBase10 ({ logC9a with amount := "0" } : SwapStartTxLog).amount).isSome = true) ∧
    ((createSwap logC9b).status = SwapStatus.quoteRejected ∧
      (createSwap logC9b).log = "unrecongnized swap amount: " ++ logC9b.amount) :=
  ⟨(c9_amount_validation_amended { logC9a with amount := "0" }).1,
    (c9_amount_validation_amended logC9b).2 (by decide)⟩

/-! ### C10 -/

/-- C10: after `AddSwapPairInstance` stores a pair under its ERC20 address,
`UpdateSwapInstance` — which looks the registry up under the pair's BEP20
address — finds nothing for a pair whose two addresses differ (given that
no other entry occupies the BEP20 key) and returns with the registry
untouched; in particular calling it with `Available=false` never removes
the pair, which remains under its ERC20 key. -/
theorem c10_update_cannot_remove_added_pair (st : EngineMaps) (p : SwapPair)
    (res : EngineMaps)
    (hne : (hexToAddress p.erc20Addr == hexToAddress p.bep20Addr) = false)
    (hmiss : mapLookup st.swapPairsFromERC20Addr (hexToAddress p.bep20Addr) = none)
    (hadd : AddSwapPairInstance st p = Except.ok res) :
    UpdateSwapInstance res p = res ∧
    (mapLookup res.swapPairsFromERC20Addr (hexToAddress p.erc20Addr)).isSome = true := by
  unfold AddSwapPairInstance at hadd
  cases hlo : goSetStringBase10 p.lowBound with
  | none => rw [hlo] at hadd; exact absurd hadd (by simp)
  | some lowBound =>
    cases hup : goSetStringBase10 p.upperBound with
    | none => rw [hlo, hup] at hadd; exact absurd hadd (by simp)
    | some upperBound =>
      rw [hlo, hup] at hadd
      have hres := Except.ok.inj hadd
      have hlook : mapLookup res.swapPairsFromERC20Addr (hexToAddress p.bep20Addr) = none := by
        rw [← hres]
        exact mapLookup_insert_ne st.swapPairsFromERC20Addr _ _ _ hne hmiss
      constructor
      · simp [UpdateSwapInstance, hlook]
      · rw [← hres]
        simp [mapInsert, mapLookup, List.find?_cons]

/-- The empty registry. -/
def st0 : EngineMaps := { swapPairsFromERC20Addr := [], bep20ToERC20 := [], erc20ToBEP20 := [] }

/-- A concrete swap pair with distinct BEP20/ERC20 addresses and
`Available=false`. -/
def pW : SwapPair :=
  { symbol := "T"
    name := "Tok"
    decimals := 18
    bep20Addr := "0x01"
    erc20Addr := "0x02"
    lowBound := "0"
    upperBound := "100"
    available := false }

/-- The registry `AddSwapPairInstance` builds from `st0` and `pW`. -/
def resW : EngineMaps :=
  { swapPairsFromERC20Addr :=
      [(hexToAddress "0x02",
        { symbol := "T"
          name := "Tok"
          decimals := 18
          lowBound := 0
          upperBound := 100
          bep20Addr := hexToAddress "0x01"
          erc20Addr := hexToAddress "0x02" })]
    bep20ToERC20 := [(hexToAddress "0x01", hexToAddress "0x02")]
    erc20ToBEP20 := [(hexToAddress "0x02", hexToAddress "0x01")] }

/-- Witness for C10 at a concrete pair: the unavailable-pair update leaves
the just-populated registry unchanged. -/
theorem c10_update_cannot_remove_added_pair_witness :
    AddSwapPairInstance st0 pW = Except.ok resW ∧
    (UpdateSwapInstance resW pW = resW ∧
      (mapLookup resW.swapPairsFromERC20Addr (hexToAddress pW.erc20Addr)).isSome = true) :=
  ⟨rfl, c10_update_cannot_remove_added_pair st0 pW resW (by decide) (by decide) rfl⟩

end OccSwap
